import Mathlib

/-!
Shallow embedding of the `axum-auth-provider` crate: the error taxonomy and
verification pipeline of `src/auth.rs`, and the single-slot TTL key-set cache
of `src/cached_jwk_set.rs`.  External crates (`jsonwebtoken`, the HTTP client)
are modelled as injected capabilities; `Instant` is modelled as a natural
number; panics (`unwrap`) are modelled by `Option`-valued results.
-/

namespace AxumAuthProvider

/-- The signing-algorithm identifier carried in a token header
(`jsonwebtoken::Algorithm`). -/
inductive Algorithm where
  | HS256 | HS384 | HS512
  | RS256 | RS384 | RS512
  | ES256 | ES384
  | PS256 | PS384 | PS512
  | EdDSA
  deriving DecidableEq, Repr

/-- Model of `jsonwebtoken::Validation`: the validation policy passed to
`decode`.  `Validation::new(alg)` restricts the allowed algorithms to the one
given and keeps library defaults for the rest. -/
structure Validation where
  algorithms : List Algorithm
  leeway : Nat
  validate_exp : Bool
  deriving DecidableEq, Repr

/-- `jsonwebtoken::Validation::new(alg)`: allowed algorithms `[alg]`, default
leeway of 60 seconds, expiry validation on. -/
def Validation.new (alg : Algorithm) : Validation :=
  { algorithms := [alg], leeway := 60, validate_exp := true }

/-- `jsonwebtoken::jwk::AlgorithmParameters`: the family-specific public key
components of one JWK record.  `RSA` carries modulus and exponent, `EllipticCurve`
carries the curve point coordinates; the remaining families are the ones the
crate's `verify` does not support. -/
inductive AlgorithmParameters where
  | RSA (n e : String)
  | EllipticCurve (x y : String)
  | OctetKey (value : String)
  | OctetKeyPair (x : String)
  deriving DecidableEq, Repr

/-- One JWK record: the key-id from the common parameters, plus the
family-specific algorithm parameters. -/
structure Jwk where
  key_id : Option String
  algorithm : AlgorithmParameters
  deriving DecidableEq, Repr

/-- `jsonwebtoken::jwk::JwkSet`: an ordered collection of JWK records. -/
structure JwkSet where
  keys : List Jwk
  deriving DecidableEq, Repr

/-- `JwkSet::find(kid)`: the first key whose key-id equals `kid`. -/
def JwkSet.find (s : JwkSet) (kid : String) : Option Jwk :=
  s.keys.find? (fun jwk => jwk.key_id = some kid)

/-- The token header produced by `jsonwebtoken::decode_header`: the declared
algorithm and the optional key-id. -/
structure Header where
  alg : Algorithm
  kid : Option String
  deriving DecidableEq, Repr

/-- The claims payload (`Claims` in `src/auth.rs`). -/
structure Claims where
  sub : String
  exp : Nat
  deriving DecidableEq, Repr

/-- `jsonwebtoken::TokenData<Claims>`: decoded header plus claims. -/
structure TokenData where
  header : Header
  claims : Claims
  deriving DecidableEq, Repr

/-- Opaque decoding-key material produced by the crypto library from a JWK's
components. -/
structure DecodingKey where
  tag : String
  deriving DecidableEq, Repr

/-- The error taxonomy of `src/auth.rs` (`AuthError`). -/
inductive AuthError where
  | InvalidToken (reason : String)
  | MissingCredentials (reason : String)
  | UnsupportedAlgorithm
  deriving DecidableEq, Repr

/-- The `thiserror`-derived `Display` of `AuthError`. -/
def AuthError.toMessage : AuthError → String
  | .InvalidToken reason => "Invalid token: " ++ reason
  | .MissingCredentials reason => "Missing credentials: " ++ reason
  | .UnsupportedAlgorithm => "Unsupported algorithm"

/-- `StatusCode::UNAUTHORIZED`. -/
def UNAUTHORIZED : Nat := 401

/-- `StatusCode::INTERNAL_SERVER_ERROR`. -/
def INTERNAL_SERVER_ERROR : Nat := 500

/-- `AuthError::status` in `src/auth.rs`. -/
def AuthError.status : AuthError → Nat
  | .InvalidToken _ => UNAUTHORIZED
  | .MissingCredentials _ | .UnsupportedAlgorithm => INTERNAL_SERVER_ERROR

/-- Minimal JSON value model, enough for the error body. -/
inductive Json where
  | str (s : String)
  | obj (fields : List (String × Json))

/-- An HTTP response as produced by the boundary adapter: status plus body. -/
structure Response where
  status : Nat
  body : Json

/-- `impl IntoResponse for AuthError` in `src/auth.rs`: a JSON body
carrying the error message, with the status from `AuthError::status`. -/
def AuthError.intoResponse (e : AuthError) : Response :=
  { status := e.status, body := Json.obj [("error", Json.str e.toMessage)] }

/-- The injected crypto-library capabilities used by `verify`
(`jsonwebtoken::decode_header`, `DecodingKey::from_rsa_components`,
`DecodingKey::from_ec_components`, `jsonwebtoken::decode`); each fails with an
error message string. -/
structure CryptoLib where
  decode_header : String → Except String Header
  from_rsa_components : String → String → Except String DecodingKey
  from_ec_components : String → String → Except String DecodingKey
  decode : String → DecodingKey → Validation → Except String TokenData

/-- The default `decode_validation` of the `AuthProvider` trait in
`src/auth.rs`: returns the validation unchanged. -/
def AuthProvider.decode_validation_default (validation : Validation) : Validation :=
  validation

/-- Rust's `str::split(sep)` collected into a list: `""` yields `[""]`,
separators at the ends yield empty segments. -/
def splitChar (sep : Char) : List Char → List (List Char)
  | [] => [[]]
  | ch :: rest =>
    match splitChar sep rest with
    | [] => if ch = sep then [[], []] else [[ch]]
    | g :: gs => if ch = sep then [] :: g :: gs else (ch :: g) :: gs

/-- `AuthProvider::verify` in `src/auth.rs`, parametrized over the crypto
library, the result of `self.jwk_set()`, and the provider's
`decode_validation`. -/
def verify (lib : CryptoLib) (jwkSetResult : Except AuthError JwkSet)
    (decode_validation : Validation → Validation) (token : String) :
    Except AuthError TokenData :=
  let token_sections : List (List Char) := splitChar '.' token.data
  if token_sections.length < 2 then
    .error (.InvalidToken "invalid format")
  else
    match lib.decode_header token with
    | .error err => .error (.InvalidToken err)
    | .ok header =>
      match jwkSetResult with
      | .error e => .error e
      | .ok jwk_set =>
        match header.kid with
        | none => .error (.InvalidToken "missing `kid` header field")
        | some kid =>
          match jwk_set.find kid with
          | none => .error (.InvalidToken "no matching JWK found for the given kid")
          | some jwk =>
            let decoding_key : Except AuthError DecodingKey :=
              match jwk.algorithm with
              | .RSA n e =>
                (lib.from_rsa_components n e).mapError (fun err => .InvalidToken err)
              | .EllipticCurve x y =>
                (lib.from_ec_components x y).mapError (fun err => .InvalidToken err)
              | _ => .error .UnsupportedAlgorithm
            match decoding_key with
            | .error e => .error e
            | .ok decoding_key =>
              let validation := decode_validation (Validation.new header.alg)
              (lib.decode token decoding_key validation).mapError
                (fun err => .InvalidToken err)

/-! ## The single-slot cache (`src/cached_jwk_set.rs`) -/

/-- `CacheEntry<T>`: a cached value with its expiry instant
(instants modelled as naturals). -/
structure CacheEntry (T : Type) where
  value : T
  expiry : Nat
  deriving DecidableEq, Repr

/-- `SingleCache<T>`: an optional cache entry. -/
structure SingleCache (T : Type) where
  slot : Option (CacheEntry T)
  deriving DecidableEq, Repr

/-- `SingleCache::is_none`. -/
def SingleCache.is_none (c : SingleCache T) : Bool :=
  c.slot.isNone

/-- `SingleCache::is_expired`: unwraps the slot (panic on an empty slot,
modelled as `none`) and compares its expiry with the current instant. -/
def SingleCache.is_expired (c : SingleCache T) (now : Nat) : Option Bool :=
  c.slot.map (fun entry => decide (entry.expiry < now))

/-- `SingleCache::inner`: unwraps the slot's value (panic on an empty slot,
modelled as `none`). -/
def SingleCache.inner (c : SingleCache T) : Option T :=
  c.slot.map (fun entry => entry.value)

/-- `impl Default for SingleCache<T>`: the empty slot. -/
def SingleCache.default (T : Type) : SingleCache T := ⟨none⟩

/-- `impl From<(Duration, T)> for SingleCache<T>`: a filled slot whose expiry
is the current instant plus the duration. -/
def SingleCache.from (duration : Nat) (value : T) (now : Nat) : SingleCache T :=
  ⟨some { value := value, expiry := now + duration }⟩

/-- An HTTP request as built in `jwk_set`: method and URI. -/
structure HttpRequest where
  method : String
  uri : String
  deriving DecidableEq, Repr

/-- An HTTP response, carrying the result of deserializing its body as a
`JwkSet` (the `.json::<JwkSet>()` call). -/
structure HttpResponse where
  json : Except String JwkSet

/-- The injected HTTP fetch capability (`dyn HttpClient`): sending may fail
with an error message. -/
structure HttpClient where
  send : HttpRequest → Except String HttpResponse

/-- The configuration of `CachedJwkSet` (the immutable fields; the mutable
slot is passed explicitly through `jwk_set`). -/
structure CachedJwkSet where
  jwk_set_uri : String
  duration : Nat
  validator : Validation → Validation
  http_client : HttpClient

/-- `CachedJwkSetBuilder`. -/
structure CachedJwkSetBuilder where
  jwk_set_uri : Option String
  duration : Option Nat
  validator : Option (Validation → Validation)
  http_client : Option HttpClient

/-- `CachedJwkSet::builder()`: all fields unset. -/
def CachedJwkSet.builder : CachedJwkSetBuilder :=
  { jwk_set_uri := none, duration := none, validator := none, http_client := none }

/-- `CachedJwkSetBuilder::jwk_set_uri`. -/
def CachedJwkSetBuilder.set_jwk_set_uri (b : CachedJwkSetBuilder) (uri : String) :
    CachedJwkSetBuilder :=
  { b with jwk_set_uri := some uri }

/-- `CachedJwkSetBuilder::duration`. -/
def CachedJwkSetBuilder.set_duration (b : CachedJwkSetBuilder) (d : Nat) :
    CachedJwkSetBuilder :=
  { b with duration := some d }

/-- `CachedJwkSetBuilder::validator`. -/
def CachedJwkSetBuilder.set_validator (b : CachedJwkSetBuilder)
    (v : Validation → Validation) : CachedJwkSetBuilder :=
  { b with validator := some v }

/-- `CachedJwkSetBuilder::http_client`. -/
def CachedJwkSetBuilder.set_http_client (b : CachedJwkSetBuilder) (c : HttpClient) :
    CachedJwkSetBuilder :=
  { b with http_client := some c }

/-- `CachedJwkSetBuilder::build`: each missing field short-circuits with its
`anyhow!` message, in source order (uri, duration, validator, http client). -/
def CachedJwkSetBuilder.build (b : CachedJwkSetBuilder) :
    Except String CachedJwkSet :=
  match b.jwk_set_uri with
  | none => .error "Issuer is required"
  | some uri =>
    match b.duration with
    | none => .error "Duration is required"
    | some duration =>
      match b.validator with
      | none => .error "Validation is required"
      | some validator =>
        match b.http_client with
        | none => .error "HTTP client is required"
        | some http_client =>
          .ok { jwk_set_uri := uri, duration := duration,
                validator := validator, http_client := http_client }

/-- `CachedJwkSet`'s `decode_validation`: applies the configured validator. -/
def CachedJwkSet.decode_validation (c : CachedJwkSet) (validation : Validation) :
    Validation :=
  c.validator validation

/-- The fill branch of `jwk_set` (the body of its `if`): send the GET request
to `jwk_set_uri`, deserialize the body, replace the slot with a fresh entry,
and return the new slot's value via `inner`; fetch failures and parse
failures surface as `MissingCredentials` and leave the slot untouched.
The third component counts invocations of the fetch capability. -/
def CachedJwkSet.fetchAndFill (c : CachedJwkSet) (cache : SingleCache JwkSet)
    (now : Nat) : Option (Except AuthError JwkSet × SingleCache JwkSet × Nat) :=
  match c.http_client.send { method := "GET", uri := c.jwk_set_uri } with
  | .error err => some (.error (.MissingCredentials err), cache, 1)
  | .ok response =>
    match response.json with
    | .error err => some (.error (.MissingCredentials err), cache, 1)
    | .ok jwk_set =>
      let filled := SingleCache.from c.duration jwk_set now
      match filled.inner with
      | none => none
      | some value => some (.ok value, filled, 1)

/-- `CachedJwkSet::jwk_set`, as a step on the cache slot.  The async mutex is
held for the whole body, so one call is one atomic step; the result records
the returned value, the slot afterwards, and how many times the fetch
capability was invoked.  The whole result is `none` exactly when an `unwrap`
inside `is_expired`/`inner` would panic; the `||` of the source
short-circuits, so `is_expired` is only consulted when the slot is nonempty. -/
def CachedJwkSet.jwk_set (c : CachedJwkSet) (cache : SingleCache JwkSet)
    (now : Nat) : Option (Except AuthError JwkSet × SingleCache JwkSet × Nat) :=
  match cache.is_none with
  | true =>
    c.fetchAndFill cache now
  | false =>
    match cache.is_expired now with
    | none => none
    | some true => c.fetchAndFill cache now
    | some false =>
      match cache.inner with
      | none => none
      | some value => some (.ok value, cache, 0)

/-- The condition of `jwk_set`'s `if`, as a predicate on the slot: empty, or
holding an entry whose expiry instant is strictly before `now`. -/
def needsFetch (cache : SingleCache JwkSet) (now : Nat) : Prop :=
  cache.slot = none ∨ ∃ e, cache.slot = some e ∧ e.expiry < now

/-- `N` sequential passages through the mutex: the async mutex of
`cached_keys` is held across the whole of `jwk_set`, so `N` concurrent
callers execute as `N` consecutive atomic calls, each threading the slot left
by the previous one.  All callers share the instant `now` (they are
concurrent).  Returns every caller's result, the final slot, and the total
number of fetch invocations. -/
def runCallers (c : CachedJwkSet) (cache : SingleCache JwkSet) (now : Nat) :
    Nat → Option (List (Except AuthError JwkSet) × SingleCache JwkSet × Nat)
  | 0 => some ([], cache, 0)
  | n + 1 =>
    match c.jwk_set cache now with
    | none => none
    | some (r, cache1, k) =>
      match runCallers c cache1 now n with
      | none => none
      | some (rs, cache2, m) => some (r :: rs, cache2, k + m)

/-! ## Concrete instances for witnesses and counterexamples -/

/-- A demo token header: RS256, key-id `k1`. -/
def demoHeader : Header := { alg := .RS256, kid := some "k1" }

/-- Demo decoded claims. -/
def demoClaims : Claims := { sub := "user-1", exp := 1700000060 }

/-- Demo decoded token. -/
def demoTokenData : TokenData := { header := demoHeader, claims := demoClaims }

/-- A demo crypto library in which every stage succeeds and the token header
carries key-id `k1`. -/
def demoLib : CryptoLib :=
  { decode_header := fun _ => .ok demoHeader
  , from_rsa_components := fun n e => .ok ⟨"rsa:" ++ n ++ ":" ++ e⟩
  , from_ec_components := fun x y => .ok ⟨"ec:" ++ x ++ ":" ++ y⟩
  , decode := fun _ _ _ => .ok demoTokenData }

/-- `demoLib` except that the parsed header has no key-id. -/
def demoLibNoKid : CryptoLib :=
  { demoLib with decode_header := fun _ => .ok { alg := .RS256, kid := none } }

/-- `demoLib` except that the parsed header carries key-id `k2`. -/
def demoLibKid2 : CryptoLib :=
  { demoLib with decode_header := fun _ => .ok { alg := .RS256, kid := some "k2" } }

/-- A demo key set holding one RSA key with key-id `k1`. -/
def demoSet : JwkSet := ⟨[{ key_id := some "k1", algorithm := .RSA "n" "e" }]⟩

/-- A second, distinguishable key set, served by the demo HTTP client. -/
def freshSet : JwkSet := ⟨[{ key_id := some "k2", algorithm := .RSA "n2" "e2" }]⟩

/-- A demo HTTP client whose fetch always succeeds with `freshSet`. -/
def demoClient : HttpClient := ⟨fun _ => .ok ⟨.ok freshSet⟩⟩

/-- A demo cache configuration over `demoClient` with a 300-second TTL. -/
def demoCachedJwkSet : CachedJwkSet :=
  { jwk_set_uri := "https://issuer.example/jwks", duration := 300,
    validator := fun v => v, http_client := demoClient }

/-- A slot holding `demoSet` with expiry instant 10. -/
def demoSlot : SingleCache JwkSet := ⟨some { value := demoSet, expiry := 10 }⟩

/-- A demo HTTP client whose fetch always fails. -/
def failClient : HttpClient := ⟨fun _ => .error "connection refused"⟩

/-- A demo cache configuration over the failing client. -/
def failCachedJwkSet : CachedJwkSet :=
  { jwk_set_uri := "https://issuer.example/jwks", duration := 300,
    validator := fun v => v, http_client := failClient }

/-- A demo validation hook that is not the identity. -/
def demoHook (v : Validation) : Validation := { v with leeway := 0 }

/-! ## Helper lemmas -/

theorem fetchAndFill_send_error {c : CachedJwkSet} {cache : SingleCache JwkSet}
    {now : Nat} {msg : String}
    (h : c.http_client.send { method := "GET", uri := c.jwk_set_uri } = .error msg) :
    c.fetchAndFill cache now = some (.error (.MissingCredentials msg), cache, 1) := by
  simp [CachedJwkSet.fetchAndFill, h]

theorem fetchAndFill_json_error {c : CachedJwkSet} {cache : SingleCache JwkSet}
    {now : Nat} {resp : HttpResponse} {msg : String}
    (hs : c.http_client.send { method := "GET", uri := c.jwk_set_uri } = .ok resp)
    (hj : resp.json = .error msg) :
    c.fetchAndFill cache now = some (.error (.MissingCredentials msg), cache, 1) := by
  simp [CachedJwkSet.fetchAndFill, hs, hj]

theorem fetchAndFill_ok {c : CachedJwkSet} {cache : SingleCache JwkSet}
    {now : Nat} {resp : HttpResponse} {s : JwkSet}
    (hs : c.http_client.send { method := "GET", uri := c.jwk_set_uri } = .ok resp)
    (hj : resp.json = .ok s) :
    c.fetchAndFill cache now = some (.ok s, SingleCache.from c.duration s now, 1) := by
  simp [CachedJwkSet.fetchAndFill, hs, hj, SingleCache.from, SingleCache.inner]

theorem fetchAndFill_isSome (c : CachedJwkSet) (cache : SingleCache JwkSet)
    (now : Nat) : (c.fetchAndFill cache now).isSome = true := by
  rcases hs : c.http_client.send { method := "GET", uri := c.jwk_set_uri } with msg | resp
  · simp [fetchAndFill_send_error hs]
  · rcases hj : resp.json with msg | s
    · simp [fetchAndFill_json_error hs hj]
    · simp [fetchAndFill_ok hs hj]

theorem jwk_set_empty {c : CachedJwkSet} {cache : SingleCache JwkSet} {now : Nat}
    (h : cache.slot = none) :
    c.jwk_set cache now = c.fetchAndFill cache now := by
  simp [CachedJwkSet.jwk_set, SingleCache.is_none, h]

theorem jwk_set_expired {c : CachedJwkSet} {cache : SingleCache JwkSet} {now : Nat}
    {e : CacheEntry JwkSet} (h : cache.slot = some e) (hexp : e.expiry < now) :
    c.jwk_set cache now = c.fetchAndFill cache now := by
  simp [CachedJwkSet.jwk_set, SingleCache.is_none, SingleCache.is_expired,
    SingleCache.inner, h, hexp]

theorem jwk_set_fresh {c : CachedJwkSet} {cache : SingleCache JwkSet} {now : Nat}
    {e : CacheEntry JwkSet} (h : cache.slot = some e) (hexp : ¬ e.expiry < now) :
    c.jwk_set cache now = some (.ok e.value, cache, 0) := by
  simp [CachedJwkSet.jwk_set, SingleCache.is_none, SingleCache.is_expired,
    SingleCache.inner, h, hexp]

theorem jwk_set_needsFetch {c : CachedJwkSet} {cache : SingleCache JwkSet} {now : Nat}
    (h : needsFetch cache now) :
    c.jwk_set cache now = c.fetchAndFill cache now := by
  rcases h with h | ⟨e, h, hexp⟩
  · exact jwk_set_empty h
  · exact jwk_set_expired h hexp

/-! ## Claim theorems -/

/-- C10: `jwk_set` never panics: the `unwrap`s inside `is_expired` and
`inner` (modelled as the `none` outcome) are only reached with a nonempty
slot, so the whole call always produces a result, on every configuration,
slot state and instant. -/
theorem c10_jwk_set_never_panics :
    ∀ (c : CachedJwkSet) (cache : SingleCache JwkSet) (now : Nat),
      (c.jwk_set cache now).isSome = true := by
  intro c cache now
  rcases h : cache.slot with _ | e
  · rw [jwk_set_empty h]; exact fetchAndFill_isSome c cache now
  · by_cases hexp : e.expiry < now
    · rw [jwk_set_expired h hexp]; exact fetchAndFill_isSome c cache now
    · rw [jwk_set_fresh h hexp]; rfl

/-- C6: the boundary adapter's response to a verification error carries the
JSON body `\x7b"error": <message>\x7d` and status `UNAUTHORIZED` (401) for
`InvalidToken`, `INTERNAL_SERVER_ERROR` (500) for `MissingCredentials` and
`UnsupportedAlgorithm`, as a function of the error value alone. -/
theorem c6_error_response_classification :
    ∀ s t : String,
      (AuthError.InvalidToken s).intoResponse =
        { status := UNAUTHORIZED,
          body := Json.obj [("error", Json.str ("Invalid token: " ++ s))] } ∧
      (AuthError.MissingCredentials t).intoResponse =
        { status := INTERNAL_SERVER_ERROR,
          body := Json.obj [("error", Json.str ("Missing credentials: " ++ t))] } ∧
      AuthError.UnsupportedAlgorithm.intoResponse =
        { status := INTERNAL_SERVER_ERROR,
          body := Json.obj [("error", Json.str "Unsupported algorithm")] } :=
  fun _ _ => ⟨rfl, rfl, rfl⟩

/-- C9: `build` succeeds exactly when all four configuration fields are
supplied, and each missing field produces its descriptive error message. -/
theorem c9_build_requires_all_fields (b : CachedJwkSetBuilder) :
    ((∃ c, b.build = .ok c) ↔
      b.jwk_set_uri.isSome ∧ b.duration.isSome ∧
        b.validator.isSome ∧ b.http_client.isSome) ∧
    (b.jwk_set_uri = none → b.build = .error "Issuer is required") ∧
    (b.jwk_set_uri.isSome → b.duration = none →
      b.build = .error "Duration is required") ∧
    (b.jwk_set_uri.isSome → b.duration.isSome → b.validator = none →
      b.build = .error "Validation is required") ∧
    (b.jwk_set_uri.isSome → b.duration.isSome → b.validator.isSome →
      b.http_client = none → b.build = .error "HTTP client is required") := by
  obtain ⟨u, d, v, h⟩ := b
  cases u <;> cases d <;> cases v <;> cases h <;>
    simp [CachedJwkSetBuilder.build]

/-- C9 witness: the fresh builder is missing its URI and fails with the
issuer message; supplying all four fields makes `build` succeed. -/
theorem c9_build_witness :
    CachedJwkSet.builder.build = .error "Issuer is required" ∧
    ∃ c, ((((CachedJwkSet.builder.set_jwk_set_uri
        "https://issuer.example/jwks").set_duration 300).set_validator
        (fun v => v)).set_http_client
        ⟨fun _ => .error "offline"⟩).build = .ok c :=
  ⟨(c9_build_requires_all_fields CachedJwkSet.builder).2.1 rfl,
    ((c9_build_requires_all_fields _).1.mpr
      ⟨rfl, rfl, rfl, rfl⟩)⟩

/-- C7: an input with fewer than two period-separated segments makes `verify`
return `InvalidToken "invalid format"`, whatever the crypto library, the
key-set result and the validation hook are (so no later step is consulted). -/
theorem c7_invalid_format (lib : CryptoLib) (jwkSetResult : Except AuthError JwkSet)
    (decode_validation : Validation → Validation) (token : String)
    (h : (splitChar '.' token.data).length < 2) :
    verify lib jwkSetResult decode_validation token =
      .error (.InvalidToken "invalid format") := by
  simp [verify, h]

/-- C7 witness: the one-segment input `abc` is rejected as `invalid format`. -/
theorem c7_invalid_format_witness :
    (splitChar '.' "abc".data).length < 2 ∧
    verify demoLib (.ok demoSet) (fun v => v) "abc" =
      .error (.InvalidToken "invalid format") :=
  ⟨by decide,
    c7_invalid_format demoLib (.ok demoSet) (fun v => v) "abc" (by decide)⟩

/-- C4 (amended): with a well-formed token whose header parses, `verify`
succeeds only if the key set contains a record with the header's key-id; a
header with no key-id yields ``InvalidToken "missing `kid` header field"``
and an unmatched key-id yields
`InvalidToken "no matching JWK found for the given kid"`. -/
theorem c4_kid_lookup (lib : CryptoLib) (s : JwkSet)
    (dv : Validation → Validation) (token : String) (header : Header)
    (hlen : 2 ≤ (splitChar '.' token.data).length)
    (hhdr : lib.decode_header token = .ok header) :
    (∀ td, verify lib (.ok s) dv token = .ok td →
      ∃ kid jwk, header.kid = some kid ∧ s.find kid = some jwk) ∧
    (header.kid = none →
      verify lib (.ok s) dv token =
        .error (.InvalidToken "missing `kid` header field")) ∧
    (∀ kid, header.kid = some kid → s.find kid = none →
      verify lib (.ok s) dv token =
        .error (.InvalidToken "no matching JWK found for the given kid")) := by
  have hlen2 : ¬ (splitChar '.' token.data).length < 2 := Nat.not_lt.mpr hlen
  refine ⟨?_, ?_, ?_⟩
  · intro td h
    rcases hk : header.kid with _ | kid
    · exfalso; simp [verify, hlen2, hhdr, hk] at h
    · rcases hf : s.find kid with _ | jwk
      · exfalso; simp [verify, hlen2, hhdr, hk, hf] at h
      · exact ⟨kid, jwk, rfl, hf⟩
  · intro hk
    simp [verify, hlen2, hhdr, hk]
  · intro kid hk hf
    simp [verify, hlen2, hhdr, hk, hf]

/-- C4 witness: a parsed header without a key-id is rejected with the
missing-kid message. -/
theorem c4_kid_lookup_witness :
    verify demoLibNoKid (.ok demoSet) (fun v => v) "h.p.s" =
      .error (.InvalidToken "missing `kid` header field") :=
  (c4_kid_lookup demoLibNoKid demoSet (fun v => v) "h.p.s"
      { alg := .RS256, kid := none } (by decide) rfl).2.1 rfl

/-- C4 counterexample: the code's messages are
``missing `kid` header field`` and
`no matching JWK found for the given kid`, not the claim's literal
`missing kid` and `no matching key`. -/
theorem c4_message_counterexample :
    verify demoLibNoKid (.ok demoSet) (fun v => v) "h.p.s" =
      .error (.InvalidToken "missing `kid` header field") ∧
    "missing `kid` header field" ≠ "missing kid" ∧
    verify demoLibKid2 (.ok demoSet) (fun v => v) "h.p.s" =
      .error (.InvalidToken "no matching JWK found for the given kid") ∧
    "no matching JWK found for the given kid" ≠ "no matching key" := by
  refine ⟨rfl, by decide, rfl, by decide⟩

/-- C5: once a JWK is matched by key-id, the RSA family builds the decoding
key from modulus and exponent, the elliptic-curve family from the x/y
coordinates (each then used at decode), a component that fails to decode
yields `InvalidToken` with the underlying reason, and the remaining
families yield `UnsupportedAlgorithm`. -/
theorem c5_key_material_resolution (lib : CryptoLib) (s : JwkSet)
    (dv : Validation → Validation) (token : String) (header : Header)
    (kid : String) (jwk : Jwk)
    (hlen : 2 ≤ (splitChar '.' token.data).length)
    (hhdr : lib.decode_header token = .ok header)
    (hkid : header.kid = some kid)
    (hfind : s.find kid = some jwk) :
    (∀ n e dk, jwk.algorithm = .RSA n e → lib.from_rsa_components n e = .ok dk →
      verify lib (.ok s) dv token =
        (lib.decode token dk (dv (Validation.new header.alg))).mapError
          (fun err => .InvalidToken err)) ∧
    (∀ n e msg, jwk.algorithm = .RSA n e →
      lib.from_rsa_components n e = .error msg →
      verify lib (.ok s) dv token = .error (.InvalidToken msg)) ∧
    (∀ x y dk, jwk.algorithm = .EllipticCurve x y →
      lib.from_ec_components x y = .ok dk →
      verify lib (.ok s) dv token =
        (lib.decode token dk (dv (Validation.new header.alg))).mapError
          (fun err => .InvalidToken err)) ∧
    (∀ x y msg, jwk.algorithm = .EllipticCurve x y →
      lib.from_ec_components x y = .error msg →
      verify lib (.ok s) dv token = .error (.InvalidToken msg)) ∧
    (∀ k, jwk.algorithm = .OctetKey k →
      verify lib (.ok s) dv token = .error .UnsupportedAlgorithm) ∧
    (∀ x, jwk.algorithm = .OctetKeyPair x →
      verify lib (.ok s) dv token = .error .UnsupportedAlgorithm) := by
  have hlen2 : ¬ (splitChar '.' token.data).length < 2 := Nat.not_lt.mpr hlen
  refine ⟨?_, ?_, ?_, ?_, ?_, ?_⟩
  · intro n e dk halg hcomp
    simp [verify, hlen2, hhdr, hkid, hfind, halg, hcomp, Except.mapError]
  · intro n e msg halg hcomp
    simp [verify, hlen2, hhdr, hkid, hfind, halg, hcomp, Except.mapError]
  · intro x y dk halg hcomp
    simp [verify, hlen2, hhdr, hkid, hfind, halg, hcomp, Except.mapError]
  · intro x y msg halg hcomp
    simp [verify, hlen2, hhdr, hkid, hfind, halg, hcomp, Except.mapError]
  · intro k halg
    simp [verify, hlen2, hhdr, hkid, hfind, halg]
  · intro x halg
    simp [verify, hlen2, hhdr, hkid, hfind, halg]

/-- C5 witness: the demo RSA key `k1` resolves to the RSA material built
from its modulus and exponent and verification proceeds to decode. -/
theorem c5_key_material_witness :
    verify demoLib (.ok demoSet) (fun v => v) "h.p.s" =
      (demoLib.decode "h.p.s" ⟨"rsa:n:e"⟩ (Validation.new demoHeader.alg)).mapError
        (fun err => AuthError.InvalidToken err) :=
  (c5_key_material_resolution demoLib demoSet (fun v => v) "h.p.s" demoHeader "k1"
      { key_id := some "k1", algorithm := .RSA "n" "e" }
      (by decide) rfl rfl rfl).1 "n" "e" ⟨"rsa:n:e"⟩ rfl rfl

/-- C8: the trait-default validation hook is the identity, `CachedJwkSet`'s
hook is the configured validator, and on the success path the validation
passed to decode is the hook applied to the default policy built from the
header's declared algorithm. -/
theorem c8_validation_hook (lib : CryptoLib) (s : JwkSet)
    (dv : Validation → Validation) (token : String) (header : Header)
    (kid : String) (jwk : Jwk) (n e : String) (dk : DecodingKey)
    (hlen : 2 ≤ (splitChar '.' token.data).length)
    (hhdr : lib.decode_header token = .ok header)
    (hkid : header.kid = some kid)
    (hfind : s.find kid = some jwk)
    (halg : jwk.algorithm = .RSA n e)
    (hcomp : lib.from_rsa_components n e = .ok dk) :
    (∀ v, AuthProvider.decode_validation_default v = v) ∧
    (∀ (cfg : CachedJwkSet) v, cfg.decode_validation v = cfg.validator v) ∧
    verify lib (.ok s) dv token =
      (lib.decode token dk (dv (Validation.new header.alg))).mapError
        (fun err => .InvalidToken err) := by
  refine ⟨fun v => rfl, fun cfg v => rfl, ?_⟩
  simp [verify, Nat.not_lt.mpr hlen, hhdr, hkid, hfind, halg, hcomp,
    Except.mapError]

/-- C8 witness: a non-identity hook is applied to the default policy built
from the header's algorithm before decode. -/
theorem c8_validation_hook_witness :
    verify demoLib (.ok demoSet) demoHook "h.p.s" =
      (demoLib.decode "h.p.s" ⟨"rsa:n:e"⟩ (demoHook (Validation.new demoHeader.alg))).mapError
        (fun err => AuthError.InvalidToken err) :=
  (c8_validation_hook demoLib demoSet demoHook "h.p.s" demoHeader "k1"
      { key_id := some "k1", algorithm := .RSA "n" "e" } "n" "e" ⟨"rsa:n:e"⟩
      (by decide) rfl rfl rfl rfl rfl).2.2

/-- C2 (amended): with an entry in the slot, a call at or before the expiry
instant returns the cached value with no fetch; a call strictly after the
expiry instant performs exactly one (successful) fetch and returns the
freshly fetched set. -/
theorem c2_ttl_boundary (c : CachedJwkSet) (e : CacheEntry JwkSet) (now : Nat)
    (resp : HttpResponse) (s : JwkSet)
    (hsend : c.http_client.send { method := "GET", uri := c.jwk_set_uri } = .ok resp)
    (hjson : resp.json = .ok s) :
    (now ≤ e.expiry →
      c.jwk_set ⟨some e⟩ now = some (.ok e.value, ⟨some e⟩, 0)) ∧
    (e.expiry < now →
      c.jwk_set ⟨some e⟩ now =
        some (.ok s, SingleCache.from c.duration s now, 1)) := by
  constructor
  · intro h
    exact jwk_set_fresh rfl (Nat.not_lt.mpr h)
  · intro h
    rw [jwk_set_expired rfl h, fetchAndFill_ok hsend hjson]

/-- C2 witness: with the entry expiring at instant 10, a call at instant 9
serves the cache without fetching and a call at instant 11 fetches once. -/
theorem c2_ttl_boundary_witness :
    demoCachedJwkSet.jwk_set demoSlot 9 = some (.ok demoSet, demoSlot, 0) ∧
    demoCachedJwkSet.jwk_set demoSlot 11 =
      some (.ok freshSet, SingleCache.from demoCachedJwkSet.duration freshSet 11, 1) :=
  ⟨(c2_ttl_boundary demoCachedJwkSet ⟨demoSet, 10⟩ 9 ⟨.ok freshSet⟩ freshSet
      rfl rfl).1 (by decide),
   (c2_ttl_boundary demoCachedJwkSet ⟨demoSet, 10⟩ 11 ⟨.ok freshSet⟩ freshSet
      rfl rfl).2 (by decide)⟩

/-- C2 counterexample: a call made exactly at the entry's expiry instant
(10) returns the cached value with zero fetch invocations; it does not
trigger the fetch that the claim requires for calls made at expiry. -/
theorem c2_expiry_instant_counterexample :
    demoCachedJwkSet.jwk_set demoSlot 10 = some (.ok demoSet, demoSlot, 0) ∧
    (demoCachedJwkSet.jwk_set demoSlot 10).map (fun r => r.2.2) ≠ some 1 := by
  have h : demoCachedJwkSet.jwk_set demoSlot 10 =
      some (.ok demoSet, demoSlot, 0) :=
    jwk_set_fresh rfl (by decide)
  refine ⟨h, ?_⟩
  rw [h]
  decide

/-- C3: when the slot is empty or expired and the fetch capability fails to
send or its payload fails to parse, `jwk_set` returns `MissingCredentials`
with the underlying reason and leaves the slot exactly as it was; any
subsequent call on that unchanged slot, still empty or expired, invokes the
fetch capability again (exactly once). -/
theorem c3_fetch_failure (c : CachedJwkSet) (cache : SingleCache JwkSet)
    (now : Nat) (hneed : needsFetch cache now) :
    (∀ msg, c.http_client.send { method := "GET", uri := c.jwk_set_uri } = .error msg →
      c.jwk_set cache now = some (.error (.MissingCredentials msg), cache, 1)) ∧
    (∀ resp msg, c.http_client.send { method := "GET", uri := c.jwk_set_uri } = .ok resp →
      resp.json = .error msg →
      c.jwk_set cache now = some (.error (.MissingCredentials msg), cache, 1)) ∧
    (∀ now2, needsFetch cache now2 →
      ∃ r slot1, c.jwk_set cache now2 = some (r, slot1, 1)) := by
  refine ⟨?_, ?_, ?_⟩
  · intro msg h
    rw [jwk_set_needsFetch hneed, fetchAndFill_send_error h]
  · intro resp msg hs hj
    rw [jwk_set_needsFetch hneed, fetchAndFill_json_error hs hj]
  · intro now2 hneed2
    rw [jwk_set_needsFetch hneed2]
    rcases hs : c.http_client.send { method := "GET", uri := c.jwk_set_uri } with msg | resp
    · exact ⟨_, _, fetchAndFill_send_error hs⟩
    · rcases hj : resp.json with msg | s
      · exact ⟨_, _, fetchAndFill_json_error hs hj⟩
      · exact ⟨_, _, fetchAndFill_ok hs hj⟩

/-- C3 witness: a failing fetch on the empty slot surfaces as
`MissingCredentials` and leaves the slot empty, with one fetch attempt. -/
theorem c3_fetch_failure_witness :
    failCachedJwkSet.jwk_set ⟨none⟩ 0 =
      some (.error (.MissingCredentials "connection refused"), ⟨none⟩, 1) :=
  (c3_fetch_failure failCachedJwkSet ⟨none⟩ 0 (Or.inl rfl)).1
    "connection refused" rfl

theorem runCallers_fresh (c : CachedJwkSet) (e : CacheEntry JwkSet) (now : Nat)
    (h : ¬ e.expiry < now) :
    ∀ m, runCallers c ⟨some e⟩ now m =
      some (List.replicate m (.ok e.value), ⟨some e⟩, 0) := by
  intro m
  induction m with
  | zero => simp [runCallers]
  | succ m ih =>
    simp only [runCallers, jwk_set_fresh rfl h, ih, List.replicate]

/-- C1: the mutex of `cached_keys` is held across the whole of `jwk_set`,
so N concurrent callers execute as N serialized atomic calls (`runCallers`);
when the slot initially needs a fetch and the fetch succeeds, the fetch
capability is invoked exactly once in total, and every one of the N callers
receives the same freshly fetched key-set value. -/
theorem c1_fetch_dedup (c : CachedJwkSet) (cache : SingleCache JwkSet)
    (now : Nat) (resp : HttpResponse) (s : JwkSet) (n : Nat)
    (hneed : needsFetch cache now)
    (hsend : c.http_client.send { method := "GET", uri := c.jwk_set_uri } = .ok resp)
    (hjson : resp.json = .ok s)
    (hn : 1 ≤ n) :
    runCallers c cache now n =
      some (List.replicate n (.ok s), SingleCache.from c.duration s now, 1) := by
  obtain ⟨m, rfl⟩ : ∃ m, n = m + 1 := ⟨n - 1, (Nat.succ_pred_eq_of_pos hn).symm⟩
  have hstep : c.jwk_set cache now =
      some (.ok s, SingleCache.from c.duration s now, 1) := by
    rw [jwk_set_needsFetch hneed, fetchAndFill_ok hsend hjson]
  have hfrom : SingleCache.from c.duration s now =
      (⟨some ⟨s, now + c.duration⟩⟩ : SingleCache JwkSet) := rfl
  have hfresh : ¬ (⟨s, now + c.duration⟩ : CacheEntry JwkSet).expiry < now :=
    Nat.not_lt.mpr (Nat.le_add_right now c.duration)
  simp only [runCallers, hstep, hfrom,
    runCallers_fresh c ⟨s, now + c.duration⟩ now hfresh m, List.replicate]

/-- C1 witness: three serialized callers on the empty slot trigger one fetch
and all three receive the freshly fetched set. -/
theorem c1_fetch_dedup_witness :
    runCallers demoCachedJwkSet ⟨none⟩ 0 3 =
      some (List.replicate 3 (.ok freshSet),
        SingleCache.from demoCachedJwkSet.duration freshSet 0, 1) :=
  c1_fetch_dedup demoCachedJwkSet ⟨none⟩ 0 ⟨.ok freshSet⟩ freshSet 3
    (Or.inl rfl) rfl rfl (by decide)

end AxumAuthProvider
